import Mathlib

/-!
Shallow embedding of `sdk/src/signer.rs` from the c2pa-rs repository.

Bytes are modelled as `Nat` values (each in range 0..255 for real data),
byte buffers as `List Nat`, and `crate::Result<T>` as `Except C2paError T`.
The `Signer` trait's operations on the `Placeholder` implementation become
Lean functions taking the (field-less) `Placeholder` value as the `self`
argument; the `AsyncSigner` operations on `AsyncPlaceholder` are embedded
the same way, with the `async` suspension modelled as the value the future
resolves to. Sequences of trait-method calls are modelled by an explicit
operation type and a state-threading interpreter, so that claims about
call order and state mutation can be stated.
-/

/-- Error kinds of the crate-level `Result` as used by the signer
contracts: a signing failure, a certificate-load failure, or a
credential-construction failure. -/
inductive C2paError where
  | signing
  | certificateLoad
  | credentialConstruction
deriving DecidableEq, Repr

/-- `crate::Result<T>`: success with a value, or a `C2paError`. -/
abbrev C2paResult (α : Type) := Except C2paError α

/-- The fixed bytes `b"invalid signature"` produced by both placeholder
signers: the ASCII codes of the literal text. -/
def invalidSignatureBytes : List Nat := "invalid signature".toList.map Char.toNat

/-- `pub struct Placeholder {}`: the placeholder signer has no fields. -/
structure Placeholder where

/-- `Placeholder::sign`: `Ok(b"invalid signature".to_vec())`, ignoring the
input data. -/
def Placeholder.sign (_self : Placeholder) (_data : List Nat) : C2paResult (List Nat) :=
  Except.ok invalidSignatureBytes

/-- `Placeholder::alg`: `None`. -/
def Placeholder.alg (_self : Placeholder) : Option String :=
  none

/-- `Placeholder::certs`: `Ok(Vec::new())`. -/
def Placeholder.certs (_self : Placeholder) : C2paResult (List (List Nat)) :=
  Except.ok []

/-- `Placeholder::reserve_size`: the constant `128`. -/
def Placeholder.reserve_size (_self : Placeholder) : Nat :=
  128

/-- Default body of the trait method `Signer::time_authority_url`: `None`. -/
def Signer.default_time_authority_url : Option String :=
  none

/-- Default body of the trait method `Signer::ocsp_val`: `None`. -/
def Signer.default_ocsp_val : Option (List Nat) :=
  none

/-- `Placeholder` does not override `time_authority_url`, so a call on it
runs the trait default. -/
def Placeholder.time_authority_url (_self : Placeholder) : Option String :=
  Signer.default_time_authority_url

/-- `Placeholder` does not override `ocsp_val`, so a call on it runs the
trait default. -/
def Placeholder.ocsp_val (_self : Placeholder) : Option (List Nat) :=
  Signer.default_ocsp_val

/-- The `Signer` trait as a record of its six operations; the two optional
operations carry the trait's default bodies, so an implementation that
lists only the four mandatory operations receives the defaults. -/
structure SignerImpl where
  sign : List Nat → C2paResult (List Nat)
  alg : Option String
  certs : C2paResult (List (List Nat))
  reserve_size : Nat
  time_authority_url : Option String := Signer.default_time_authority_url
  ocsp_val : Option (List Nat) := Signer.default_ocsp_val

/-- The `impl Signer for Placeholder` block: only the four mandatory
operations are given, the optional ones fall to the trait defaults. -/
def Placeholder.signerImpl (p : Placeholder) : SignerImpl :=
  { sign := p.sign
    alg := p.alg
    certs := p.certs
    reserve_size := p.reserve_size }

/-- `pub struct AsyncPlaceholder {}`: the async placeholder has no fields. -/
structure AsyncPlaceholder where

/-- `AsyncPlaceholder::sign` (the value its future resolves to):
`Ok(b"invalid signature".to_vec())`, ignoring the input data. -/
def AsyncPlaceholder.sign (_self : AsyncPlaceholder) (_data : List Nat) : C2paResult (List Nat) :=
  Except.ok invalidSignatureBytes

/-- `AsyncPlaceholder::reserve_size`: the constant `128`. -/
def AsyncPlaceholder.reserve_size (_self : AsyncPlaceholder) : Nat :=
  128

/-- One call of the `Signer` capability on an instance. -/
inductive SignerOp where
  | sign (data : List Nat)
  | alg
  | certs
  | reserveSize
  | timeAuthorityUrl
  | ocspVal
deriving DecidableEq, Repr

/-- The value returned by one call of the `Signer` capability. -/
inductive SignerRet where
  | signRet (r : C2paResult (List Nat))
  | algRet (r : Option String)
  | certsRet (r : C2paResult (List (List Nat)))
  | sizeRet (n : Nat)
  | urlRet (r : Option String)
  | ocspRet (r : Option (List Nat))
deriving Repr

/-- Dispatch one call on a `Placeholder` instance. Every method of
`impl Signer for Placeholder` takes `&self`, so the instance after the
call is the same value as before it. -/
def Placeholder.step (p : Placeholder) : SignerOp → SignerRet × Placeholder
  | SignerOp.sign d => (SignerRet.signRet (p.sign d), p)
  | SignerOp.alg => (SignerRet.algRet p.alg, p)
  | SignerOp.certs => (SignerRet.certsRet p.certs, p)
  | SignerOp.reserveSize => (SignerRet.sizeRet p.reserve_size, p)
  | SignerOp.timeAuthorityUrl => (SignerRet.urlRet p.time_authority_url, p)
  | SignerOp.ocspVal => (SignerRet.ocspRet p.ocsp_val, p)

/-- Run a sequence of calls on a `Placeholder` instance, threading the
instance through and collecting each call's return value. -/
def Placeholder.run (p : Placeholder) : List SignerOp → List SignerRet × Placeholder
  | [] => ([], p)
  | op :: ops =>
    let r := p.step op
    let rest := Placeholder.run r.2 ops
    (r.1 :: rest.1, rest.2)

/-- One call of the `AsyncSigner` capability on an instance. -/
inductive AsyncSignerOp where
  | sign (data : List Nat)
  | reserveSize
deriving DecidableEq, Repr

/-- The value returned by one call of the `AsyncSigner` capability. -/
inductive AsyncSignerRet where
  | signRet (r : C2paResult (List Nat))
  | sizeRet (n : Nat)
deriving Repr

/-- Dispatch one call on an `AsyncPlaceholder` instance; both methods take
`&self`, so the instance after the call is the same value as before it. -/
def AsyncPlaceholder.step (a : AsyncPlaceholder) :
    AsyncSignerOp → AsyncSignerRet × AsyncPlaceholder
  | AsyncSignerOp.sign d => (AsyncSignerRet.signRet (a.sign d), a)
  | AsyncSignerOp.reserveSize => (AsyncSignerRet.sizeRet a.reserve_size, a)

/-- Run a sequence of calls on an `AsyncPlaceholder` instance. -/
def AsyncPlaceholder.run (a : AsyncPlaceholder) :
    List AsyncSignerOp → List AsyncSignerRet × AsyncPlaceholder
  | [] => ([], a)
  | op :: ops =>
    let r := a.step op
    let rest := AsyncPlaceholder.run r.2 ops
    (r.1 :: rest.1, rest.2)

/-- Modelled from the spec: the repository source contains only the
`ConfigurableSigner` trait declaration, no implementation of it. A file
system is a map from path strings to optional byte contents; `none` is a
non-existent or unreadable path. -/
structure FileSystem where
  read : String → Option (List Nat)

/-- Modelled from the spec: `ConfigurableSigner::from_files` loads the
certificate and private key from the two paths and constructs the signer
from the loaded bytes (the construction from in-memory bytes is the
`from_signcert_and_pkey` backend parameter); it fails with a
credential-construction error if either path is unreadable. -/
def ConfigurableSigner.from_files
    (from_signcert_and_pkey : List Nat → List Nat → String → Option String → C2paResult SignerImpl)
    (fs : FileSystem) (signcert_path pkey_path : String)
    (alg : String) (tsa_url : Option String) : C2paResult SignerImpl :=
  match fs.read signcert_path with
  | none => Except.error C2paError.credentialConstruction
  | some signcert =>
    match fs.read pkey_path with
    | none => Except.error C2paError.credentialConstruction
    | some pkey => from_signcert_and_pkey signcert pkey alg tsa_url

/-- Every call of the `Signer` capability on a `Placeholder` leaves the
instance unchanged. Shared helper for the trace claims. -/
theorem Placeholder.step_snd (p : Placeholder) (op : SignerOp) :
    (p.step op).2 = p := by
  cases op <;> rfl

/-- A `Placeholder.run` trace returns each call's standalone result and
leaves the instance unchanged. Shared helper for the trace claims. -/
theorem Placeholder.run_eq (p : Placeholder) (ops : List SignerOp) :
    Placeholder.run p ops = (ops.map fun op => (p.step op).1, p) := by
  induction ops with
  | nil => rfl
  | cons op ops ih =>
    simp only [Placeholder.run, Placeholder.step_snd, ih, List.map]

/-- Every call of the `AsyncSigner` capability on an `AsyncPlaceholder`
leaves the instance unchanged. Shared helper for the trace claims. -/
theorem AsyncPlaceholder.async_step_snd (a : AsyncPlaceholder) (op : AsyncSignerOp) :
    (a.step op).2 = a := by
  cases op <;> rfl

/-- An `AsyncPlaceholder.run` trace returns each call's standalone result
and leaves the instance unchanged. Shared helper for the trace claims. -/
theorem AsyncPlaceholder.async_run_eq (a : AsyncPlaceholder) (ops : List AsyncSignerOp) :
    AsyncPlaceholder.run a ops = (ops.map fun op => (a.step op).1, a) := by
  induction ops with
  | nil => rfl
  | cons op ops ih =>
    simp only [AsyncPlaceholder.run, AsyncPlaceholder.async_step_snd, ih, List.map]

/-- C1: whenever a signer defined in the source (`Placeholder`,
`AsyncPlaceholder`) returns a signature successfully, its length is at
most the signer's `reserve_size`; in particular every `Placeholder`
signature fits in the 128 reserved bytes. -/
theorem C1_sign_length_le_reserve_size (p : Placeholder) (a : AsyncPlaceholder)
    (d s₁ s₂ : List Nat)
    (hp : p.sign d = Except.ok s₁) (ha : a.sign d = Except.ok s₂) :
    s₁.length ≤ p.reserve_size ∧ s₂.length ≤ a.reserve_size := by
  simp only [Placeholder.sign, Except.ok.injEq] at hp
  simp only [AsyncPlaceholder.sign, Except.ok.injEq] at ha
  subst hp
  subst ha
  constructor
  · show invalidSignatureBytes.length ≤ 128
    decide
  · show invalidSignatureBytes.length ≤ 128
    decide

/-- Witness for C1 at the empty input on both placeholder signers. -/
theorem C1_sign_length_le_reserve_size_witness :
    invalidSignatureBytes.length ≤ Placeholder.reserve_size Placeholder.mk ∧
      invalidSignatureBytes.length ≤ AsyncPlaceholder.reserve_size AsyncPlaceholder.mk :=
  C1_sign_length_le_reserve_size Placeholder.mk AsyncPlaceholder.mk []
    invalidSignatureBytes invalidSignatureBytes rfl rfl

/-- C2: for every input, including the empty one, `Placeholder::sign`
succeeds with exactly the ASCII bytes of "invalid signature" — a result
independent of the input — and never returns an error. -/
theorem C2_sign_is_fixed_invalid_signature (p : Placeholder) (d : List Nat) :
    p.sign d = Except.ok invalidSignatureBytes ∧
      invalidSignatureBytes =
        [105, 110, 118, 97, 108, 105, 100, 32, 115, 105, 103, 110, 97, 116, 117, 114, 101] ∧
      ∀ e : C2paError, p.sign d ≠ Except.error e := by
  refine ⟨rfl, by decide, ?_⟩
  intro e h
  simp only [Placeholder.sign] at h
  exact Except.noConfusion h

/-- C3: `Placeholder::certs` returns `Ok` of the empty chain,
`Placeholder::alg` returns `None`, `Placeholder::reserve_size` returns
128, and signing `b"hello"` returns `Ok(b"invalid signature")`. -/
theorem C3_placeholder_scenario (p : Placeholder) :
    p.certs = Except.ok [] ∧ p.alg = none ∧ p.reserve_size = 128 ∧
      p.sign ("hello".toList.map Char.toNat) = Except.ok invalidSignatureBytes :=
  ⟨rfl, rfl, rfl, rfl⟩

/-- C4: in any sequence of capability calls on a `Placeholder` or an
`AsyncPlaceholder`, every `reserve_size` call, at whatever position,
returns 128: the value is a stable constant for the instance. -/
theorem C4_reserve_size_stable (p : Placeholder) (a : AsyncPlaceholder)
    (ops : List SignerOp) (aops : List AsyncSignerOp) (i j : Nat)
    (hi : ops[i]? = some SignerOp.reserveSize)
    (hj : aops[j]? = some AsyncSignerOp.reserveSize) :
    (Placeholder.run p ops).1[i]? = some (SignerRet.sizeRet 128) ∧
      (AsyncPlaceholder.run a aops).1[j]? = some (AsyncSignerRet.sizeRet 128) := by
  constructor
  · rw [Placeholder.run_eq]
    simp only [List.getElem?_map, hi, Option.map_some']
    rfl
  · rw [AsyncPlaceholder.async_run_eq]
    simp only [List.getElem?_map, hj, Option.map_some']
    rfl

/-- Witness for C4: a `reserve_size` call after an `alg` call on a
`Placeholder`, and a first `reserve_size` call on an `AsyncPlaceholder`. -/
theorem C4_reserve_size_stable_witness :
    (Placeholder.run Placeholder.mk [SignerOp.alg, SignerOp.reserveSize]).1[1]? =
        some (SignerRet.sizeRet 128) ∧
      (AsyncPlaceholder.run AsyncPlaceholder.mk [AsyncSignerOp.reserveSize]).1[0]? =
        some (AsyncSignerRet.sizeRet 128) :=
  C4_reserve_size_stable Placeholder.mk AsyncPlaceholder.mk
    [SignerOp.alg, SignerOp.reserveSize] [AsyncSignerOp.reserveSize] 1 0 rfl rfl

/-- C5: the async placeholder is extensionally the sync one: for every
input its `sign` resolves to the same `Ok(b"invalid signature")` as
`Placeholder::sign`, and the two `reserve_size` values agree at 128. -/
theorem C5_async_matches_sync (p : Placeholder) (a : AsyncPlaceholder) (d : List Nat) :
    a.sign d = p.sign d ∧ a.sign d = Except.ok invalidSignatureBytes ∧
      a.reserve_size = p.reserve_size ∧ p.reserve_size = 128 :=
  ⟨rfl, rfl, rfl, rfl⟩

/-- C6: a `Signer` implementation that overrides none of the optional
operations gets the trait defaults — `time_authority_url` and `ocsp_val`
both return `None` — and `Placeholder`, overriding neither, does. -/
theorem C6_optional_operation_defaults (s : List Nat → C2paResult (List Nat))
    (al : Option String) (c : C2paResult (List (List Nat))) (rs : Nat) (p : Placeholder) :
    ({ sign := s, alg := al, certs := c, reserve_size := rs } :
        SignerImpl).time_authority_url = none ∧
      ({ sign := s, alg := al, certs := c, reserve_size := rs } :
        SignerImpl).ocsp_val = none ∧
      p.signerImpl.time_authority_url = none ∧ p.signerImpl.ocsp_val = none ∧
      p.time_authority_url = none ∧ p.ocsp_val = none :=
  ⟨rfl, rfl, rfl, rfl, rfl, rfl⟩

/-- C7: no `Signer` operation mutates the `Placeholder` instance: one
step leaves it unchanged, a whole trace leaves it unchanged, and each
call's result is what the call returns on the initial instance,
independently of the calls made before it. -/
theorem C7_operations_do_not_mutate (p : Placeholder) (ops : List SignerOp) (op : SignerOp) :
    (p.step op).2 = p ∧ (Placeholder.run p ops).2 = p ∧
      (Placeholder.run p ops).1 = ops.map fun o => (p.step o).1 := by
  refine ⟨Placeholder.step_snd p op, ?_, ?_⟩
  · rw [Placeholder.run_eq]
  · rw [Placeholder.run_eq]

/-- C8: `ConfigurableSigner::from_files` on a path that does not exist
returns a credential-construction error (it is a total function, so it
cannot panic), whatever the backend construction does. -/
theorem C8_from_files_unreadable_path
    (from_signcert_and_pkey : List Nat → List Nat → String → Option String → C2paResult SignerImpl)
    (fs : FileSystem) (signcert_path pkey_path : String)
    (alg : String) (tsa_url : Option String)
    (h : fs.read signcert_path = none ∨ fs.read pkey_path = none) :
    ConfigurableSigner.from_files from_signcert_and_pkey fs signcert_path pkey_path alg tsa_url =
      Except.error C2paError.credentialConstruction := by
  unfold ConfigurableSigner.from_files
  rcases h with h | h
  · rw [h]
  · cases hc : fs.read signcert_path <;> simp [h, hc]

/-- Witness for C8: an empty file system where no path exists. -/
theorem C8_from_files_unreadable_path_witness :
    ConfigurableSigner.from_files (fun _ _ _ _ => Except.error C2paError.signing)
        (FileSystem.mk fun _ => none) "missing_cert.pem" "missing_key.pem" "es256" none =
      Except.error C2paError.credentialConstruction :=
  C8_from_files_unreadable_path (fun _ _ _ _ => Except.error C2paError.signing)
    (FileSystem.mk fun _ => none) "missing_cert.pem" "missing_key.pem" "es256" none
    (Or.inl rfl)

/-- C9: `Placeholder` construction is infallible (every instance is the
field-less `Placeholder.mk`) and any two instances are interchangeable:
every operation of the capability returns equal results on both. -/
theorem C9_instances_interchangeable (p q : Placeholder) (d : List Nat) (op : SignerOp) :
    p = Placeholder.mk ∧ p = q ∧ p.sign d = q.sign d ∧ p.alg = q.alg ∧
      p.certs = q.certs ∧ p.reserve_size = q.reserve_size ∧
      p.time_authority_url = q.time_authority_url ∧ p.ocsp_val = q.ocsp_val ∧
      (p.step op).1 = (q.step op).1 := by
  cases p
  cases q
  exact ⟨rfl, rfl, rfl, rfl, rfl, rfl, rfl, rfl, rfl⟩

/-- C10: the fixed placeholder signature is exactly 17 bytes, so every
successful `Placeholder::sign` result is strictly below the 128-byte
reserve, leaving 111 bytes of slack. -/
theorem C10_signature_length_slack (p : Placeholder) (d s : List Nat)
    (h : p.sign d = Except.ok s) :
    s.length = 17 ∧ s.length < p.reserve_size ∧ p.reserve_size - s.length = 111 := by
  simp only [Placeholder.sign, Except.ok.injEq] at h
  subst h
  refine ⟨by decide, ?_, ?_⟩
  · show invalidSignatureBytes.length < 128
    decide
  · show 128 - invalidSignatureBytes.length = 111
    decide

/-- Witness for C10 at the empty input. -/
theorem C10_signature_length_slack_witness :
    invalidSignatureBytes.length = 17 ∧
      invalidSignatureBytes.length < Placeholder.reserve_size Placeholder.mk ∧
      Placeholder.reserve_size Placeholder.mk - invalidSignatureBytes.length = 111 :=
  C10_signature_length_slack Placeholder.mk [] invalidSignatureBytes rfl
